import Mathlib

/-!
Verification of the honeyelb `honeyalb` command (src/cmd/honeyalb/main.go)
against its natural-language specification.

The Go program is shallowly embedded as pure Lean functions.  External
effects (AWS calls, the DynamoDB table probe, the state-directory stat)
are parameters gathered in an `Env` record; the command-line options
struct is `Options`.  `logrus.Fatal` (log plus `os.Exit(1)`) is modelled
as a distinguished `fatal` outcome carrying its message; a `return err`
from `cmdALB` is the `err` outcome (main prints it and exits 1); entering
the infinite publisher loop is the `loop` outcome, which records the
ledger variant chosen and the load balancers whose downloaders were
started.  Flag parsing itself is outside the model: `mainGo` receives the
already-parsed options, as `main.go` receives them from go-flags.
-/

/-- Command-line options relevant to the modelled behaviour
(fields of `options.Options` read by main.go). -/
structure Options where
  writeKey : String
  backfillHr : Int
  highAvail : Bool
  stateDir : String
  version : Bool
deriving Repr, DecidableEq

/-- The external world as seen by main.go: the account-wide
`DescribeLoadBalancers` listing, the per-name describe call, the
per-name `DescribeLoadBalancerAttributes` call, whether
`state.NewDynamoDBStater` succeeds (the DynamoDB table exists), and
whether `os.Stat(opt.StateDir)` succeeds. -/
structure Env where
  listLBs : Except String (List String)
  describeLB : String → Except String Unit
  describeAttrs : String → Except String (List (String × String))
  dynamoOk : Bool
  stateDirExists : Bool

/-- Which `state.Stater` variant `cmdALB` constructed
(DynamoDB-backed distributed ledger vs. local file ledger). -/
inductive StaterKind
  | dynamo
  | file
deriving Repr, DecidableEq

/-- Result of one `ingestALB` call: `fatalErr` for the `logrus.Fatal(err)`
paths on the two describe calls, `retErr` for a returned error
(access logs disabled), `started` when a downloader goroutine was
launched for the resource. -/
inductive IngestResult
  | fatalErr (msg : String)
  | retErr (msg : String)
  | started
deriving Repr, DecidableEq

/-- Outcome of `cmdALB`: `fatal` is a `logrus.Fatal` (exit 1), `err` is a
returned error (main prints it, exit 1), `retOk` a nil return (exit 0),
`loop` means the publisher loop was entered with the given ledger variant
and started downloaders, `panicked` the out-of-range `args[0]` index
(unreachable from `main`, which rejects empty argument lists first). -/
inductive CmdOutcome
  | fatal (msg : String)
  | err (msg : String)
  | retOk
  | loop (st : StaterKind) (started : List String)
  | panicked
deriving Repr, DecidableEq

/-- Outcome of `main`. -/
inductive MainOutcome
  | exit (code : Nat)
  | fatal (msg : String)
  | loop (st : StaterKind) (started : List String)
  | panicked
deriving Repr, DecidableEq

def writeKeyMsg : String :=
  "--writekey must be set to the proper write key for the Honeycomb team."

def backfillMsg : String :=
  "--backfill requires an hour input between 1 and 168"

def highAvailMsg : String :=
  "--highavail requires an existing DynamoDB table named appropriately, please refer to the README."

def accessLogsMsg : String :=
  "access logs no enabled"

def stateDirMsg : String :=
  "Specified state directory does not exist"

def fatalIngestMsg : String :=
  "Exiting due to fatal error."

def interruptMsg : String :=
  "Exiting due to interrupt."

def unrecognizedMsg (s : String) : String :=
  "Subcommand \"" ++ s ++ "\" not recognized"

/-- The attribute scan of `ingestALB` (main.go lines 209-223): fold over
the `DescribeLoadBalancerAttributes` key/value pairs, computing
(access-logging enabled, bucket name, bucket key namespace). -/
def accessLogInfo (attrs : List (String × String)) : Bool × String × String :=
  attrs.foldl
    (fun acc p =>
      let en := if p.1 == "access_logs.s3.enabled" && p.2 == "true" then true else acc.1
      let bkt := if p.1 == "access_logs.s3.bucket" then p.2 else acc.2.1
      let pre := if p.1 == "access_logs.s3.prefix" then p.2 else acc.2.2
      (en, bkt, pre))
    (false, "", "")

/-- `ingestALB` (main.go lines 188-247): describe the load balancer by
name (`logrus.Fatal` on error), fetch its attributes (`logrus.Fatal` on
error), then either return the descriptive access-logs error, or start
the downloader goroutine and return nil. -/
def ingestALB (env : Env) (id : String) : IngestResult :=
  match env.describeLB id with
  | Except.error e => IngestResult.fatalErr e
  | Except.ok _ =>
    match env.describeAttrs id with
    | Except.error e => IngestResult.fatalErr e
    | Except.ok attrs =>
      if (accessLogInfo attrs).1 then
        IngestResult.started
      else
        IngestResult.retErr accessLogsMsg

/-- The call site in `cmdALB` names the per-resource setup `ingestDist`
(main.go line 107); it is the function defined as `ingestALB`. -/
def ingestDist : Env → String → IngestResult := ingestALB

/-- The per-load-balancer loop of `cmdALB` (main.go lines 102-119):
`explicit` is `len(args[1:]) > 0`.  A `logrus.Fatal` inside `ingestDist`
kills the process; a returned error is fatal when names were given
explicitly and otherwise logged and skipped; on success the resource's
downloader is recorded as started.  Falling off the loop enters the
publisher loop. -/
def runMonitors (env : Env) (st : StaterKind) (explicit : Bool) :
    List String → CmdOutcome
  | [] => CmdOutcome.loop st []
  | n :: rest =>
    match ingestDist env n with
    | IngestResult.fatalErr e => CmdOutcome.fatal e
    | IngestResult.retErr _ =>
      if explicit then CmdOutcome.fatal fatalIngestMsg
      else runMonitors env st explicit rest
    | IngestResult.started =>
      match runMonitors env st explicit rest with
      | CmdOutcome.loop s l => CmdOutcome.loop s (n :: l)
      | other => other

/-- `cmdALB` (main.go lines 40-142): the account listing is performed
first and its error returned before any subcommand dispatch; `ls`/`list`
print and return nil; `ingest` checks the write key, defaults the name
list to all listed load balancers, validates the backfill window,
chooses the ledger variant (DynamoDB when `--highavail`, fatal if the
table is missing; local files otherwise) and runs the monitor loop; any
other first argument produces the "not recognized" error. -/
def cmdALB (opt : Options) (env : Env) (args : List String) : CmdOutcome :=
  match env.listLBs with
  | Except.error e => CmdOutcome.err e
  | Except.ok lbs =>
    match args with
    | [] => CmdOutcome.panicked
    | a :: rest =>
      if a == "ls" || a == "list" then
        CmdOutcome.retOk
      else if a == "ingest" then
        if opt.writeKey == "" then
          CmdOutcome.fatal writeKeyMsg
        else
          if opt.backfillHr < 1 || opt.backfillHr > 168 then
            CmdOutcome.fatal backfillMsg
          else if opt.highAvail then
            if env.dynamoOk then
              runMonitors env StaterKind.dynamo (!rest.isEmpty)
                (if rest.isEmpty then lbs else rest)
            else
              CmdOutcome.fatal highAvailMsg
          else
            runMonitors env StaterKind.file (!rest.isEmpty)
              (if rest.isEmpty then lbs else rest)
      else
        CmdOutcome.err (unrecognizedMsg a)

/-- `main` (main.go lines 144-186) after successful flag parsing: the
state-directory stat check comes first and is fatal on a missing
directory, then `--version` prints and exits 0, an empty argument list
prints usage and exits 1, and otherwise `cmdALB` runs, a returned error
exiting 1 and a nil return exiting 0. -/
def mainGo (opt : Options) (env : Env) (args : List String) : MainOutcome :=
  if !env.stateDirExists then
    MainOutcome.fatal stateDirMsg
  else if opt.version then
    MainOutcome.exit 0
  else if args.isEmpty then
    MainOutcome.exit 1
  else
    match cmdALB opt env args with
    | CmdOutcome.fatal m => MainOutcome.fatal m
    | CmdOutcome.err _ => MainOutcome.exit 1
    | CmdOutcome.retOk => MainOutcome.exit 0
    | CmdOutcome.loop st l => MainOutcome.loop st l
    | CmdOutcome.panicked => MainOutcome.panicked

/-- The process exit code implied by a `MainOutcome`:
`logrus.Fatal` exits 1; the publisher loop never exits by itself. -/
def exitCode : MainOutcome → Option Nat
  | MainOutcome.exit n => some n
  | MainOutcome.fatal _ => some 1
  | MainOutcome.loop _ _ => none
  | MainOutcome.panicked => none

/-- One input to the publisher loop of `cmdALB` (main.go lines 121-137):
either a `DownloadedObject` received from the downloads channel
(identified by its object key) or the arrival of an interrupt signal. -/
inductive Event
  | download (key : String)
  | interrupt
deriving Repr, DecidableEq

/-- The publisher loop (main.go lines 121-137) serialised over its input
events.  `pub` is `defaultPublisher.Publish` (true = success).  Each
received object gets exactly one publish attempt; a failure is logged
(recorded as `false`) and the loop continues.  An interrupt triggers the
`logrus.Fatal("Exiting due to interrupt.")` goroutine: the process exits
with code 1 and no further event is consumed.  An exhausted event list
leaves the loop still running (`none`). -/
def publisherRun (pub : String → Bool) : List Event → List (String × Bool) × Option Nat
  | [] => ([], none)
  | Event.interrupt :: _ => ([], some 1)
  | Event.download k :: rest =>
    let r := publisherRun pub rest
    ((k, pub k) :: r.1, r.2)

/-- Modelled from the spec: the processed-object ledger's conditional
`MarkProcessed` (`state.Stater`, not under src/) — an insert-if-absent
that fails when the key is already committed, per spec §4.1. -/
def markProcessed (ledger : List String) (k : String) : Option (List String) :=
  if k ∈ ledger then none else some (k :: ledger)

/-- Modelled from the spec: one discover→download→mark pass of the
Resource Monitor over a backfill window (`logbucket.Downloader.Download`
with `state.Stater`, not under src/).  Per spec §4.2: enumerate the
candidate keys of the window, skip keys the Ledger has `Seen`, and for
each new key download it, call `MarkProcessed`, and only if the mark
succeeds emit the key onto the Dispatch Channel.  Returns the updated
ledger and the emitted keys. -/
def runWindow : List String → List String → List String × List String
  | ledger, [] => (ledger, [])
  | ledger, k :: rest =>
    if k ∈ ledger then
      runWindow ledger rest
    else
      match markProcessed ledger k with
      | some l2 =>
        let r := runWindow l2 rest
        (r.1, k :: r.2)
      | none => runWindow ledger rest

/-! ### Concrete environments used by witnesses and counterexamples -/

/-- An environment where every AWS call succeeds and access logging is
enabled on both load balancers. -/
def envOk : Env :=
  { listLBs := Except.ok ["alpha", "beta"]
    describeLB := fun _ => Except.ok ()
    describeAttrs := fun _ =>
      Except.ok [("access_logs.s3.enabled", "true"), ("access_logs.s3.bucket", "bkt")]
    dynamoOk := true
    stateDirExists := true }

/-- An environment where load balancer "a" has access logging disabled
and "b" has it enabled. -/
def envDisabledA : Env :=
  { listLBs := Except.ok ["a", "b"]
    describeLB := fun _ => Except.ok ()
    describeAttrs := fun n =>
      if n == "a" then Except.ok [("access_logs.s3.enabled", "false")]
      else Except.ok [("access_logs.s3.enabled", "true"), ("access_logs.s3.bucket", "bkt")]
    dynamoOk := true
    stateDirExists := true }

/-- An environment where the account-wide listing fails. -/
def envListErr : Env :=
  { listLBs := Except.error "listing failed"
    describeLB := fun _ => Except.ok ()
    describeAttrs := fun _ => Except.ok []
    dynamoOk := true
    stateDirExists := true }

/-- An environment where the per-name describe call fails
(resource not found). -/
def envNotFound : Env :=
  { listLBs := Except.ok ["a", "b"]
    describeLB := fun _ => Except.error "load balancer not found"
    describeAttrs := fun _ => Except.ok []
    dynamoOk := true
    stateDirExists := true }

/-- An environment whose DynamoDB ledger table is missing. -/
def envNoDynamo : Env :=
  { listLBs := Except.ok ["alpha"]
    describeLB := fun _ => Except.ok ()
    describeAttrs := fun _ =>
      Except.ok [("access_logs.s3.enabled", "true"), ("access_logs.s3.bucket", "bkt")]
    dynamoOk := false
    stateDirExists := true }

/-- An environment whose configured state directory does not exist. -/
def envNoStateDir : Env :=
  { listLBs := Except.ok ["alpha"]
    describeLB := fun _ => Except.ok ()
    describeAttrs := fun _ => Except.ok []
    dynamoOk := true
    stateDirExists := false }

/-- A fully valid option set. -/
def optOk : Options :=
  { writeKey := "wk", backfillHr := 24, highAvail := false
    stateDir := "/var/honeyalb", version := false }

/-! ### C7, C8, C9 -/

/-- C7: for every resource whose access logging is disabled, `ingestALB`
fails fast with the descriptive error instead of silently doing nothing,
and no downloader is started for it. -/
theorem C7_logging_disabled_fail_fast (env : Env) (id : String)
    (attrs : List (String × String))
    (h1 : env.describeLB id = Except.ok ())
    (h2 : env.describeAttrs id = Except.ok attrs)
    (h3 : (accessLogInfo attrs).1 = false) :
    ingestALB env id = IngestResult.retErr accessLogsMsg ∧
      ingestALB env id ≠ IngestResult.started := by
  have : ingestALB env id = IngestResult.retErr accessLogsMsg := by
    simp [ingestALB, h1, h2, h3]
  exact ⟨this, by simp [this]⟩

theorem C7_witness :
    ingestALB envDisabledA "a" = IngestResult.retErr accessLogsMsg ∧
      ingestALB envDisabledA "a" ≠ IngestResult.started :=
  C7_logging_disabled_fail_fast envDisabledA "a"
    [("access_logs.s3.enabled", "false")] rfl rfl rfl

/-- C8: a missing write key makes the ingest subcommand fail fatally with
the actionable message, before any ledger is constructed or any resource
monitoring begins, for every environment and every remaining option. -/
theorem C8_missing_writekey_fatal (opt : Options) (env : Env)
    (lbs rest : List String)
    (hlbs : env.listLBs = Except.ok lbs)
    (hwk : opt.writeKey = "")
    (hsd : env.stateDirExists = true)
    (hv : opt.version = false) :
    cmdALB opt env ("ingest" :: rest) = CmdOutcome.fatal writeKeyMsg ∧
      mainGo opt env ("ingest" :: rest) = MainOutcome.fatal writeKeyMsg := by
  have hc : cmdALB opt env ("ingest" :: rest) = CmdOutcome.fatal writeKeyMsg := by
    unfold cmdALB
    rw [hlbs]
    simp [hwk]
  refine ⟨hc, ?_⟩
  unfold mainGo
  rw [hsd, hv]
  simp [hc]

theorem C8_witness :
    cmdALB { optOk with writeKey := "" } envOk ["ingest"] =
        CmdOutcome.fatal writeKeyMsg ∧
      mainGo { optOk with writeKey := "" } envOk ["ingest"] =
        MainOutcome.fatal writeKeyMsg :=
  C8_missing_writekey_fatal { optOk with writeKey := "" } envOk
    ["alpha", "beta"] [] rfl rfl rfl rfl

/-- C9: whenever the configured state directory does not exist, `main`
exits fatally with the state-directory message — for every option set
(including `--version` and `--highavail`) and every argument list
(including `ls`), since the stat check precedes the version print and
the subcommand dispatch. -/
theorem C9_missing_statedir_always_fatal (opt : Options) (env : Env)
    (args : List String)
    (h : env.stateDirExists = false) :
    mainGo opt env args = MainOutcome.fatal stateDirMsg := by
  unfold mainGo
  rw [h]
  simp

theorem C9_witness :
    mainGo { optOk with version := true, highAvail := true } envNoStateDir
        ["ls"] = MainOutcome.fatal stateDirMsg :=
  C9_missing_statedir_always_fatal
    { optOk with version := true, highAvail := true } envNoStateDir ["ls"] rfl

/-! ### C10 -/

/-- C10: every subcommand path in `cmdALB` performs the account-wide
`DescribeLoadBalancers` listing first: a listing failure is returned as
the command's error for every argument list (so before any
subcommand-specific behaviour), and the "not recognized" error for an
unknown subcommand — which makes `main` exit 1 — is produced only on the
success branch of the listing. -/
theorem C10_listing_precedes_dispatch (opt : Options) (envE envO : Env)
    (args : List String) (e : String) (lbs : List String) (s : String)
    (rest : List String)
    (h1 : envE.listLBs = Except.error e)
    (h2 : envO.listLBs = Except.ok lbs)
    (h3 : (s == "ls") = false) (h4 : (s == "list") = false)
    (h5 : (s == "ingest") = false)
    (hsd : envO.stateDirExists = true) (hv : opt.version = false) :
    cmdALB opt envE args = CmdOutcome.err e ∧
      cmdALB opt envO (s :: rest) = CmdOutcome.err (unrecognizedMsg s) ∧
      mainGo opt envO (s :: rest) = MainOutcome.exit 1 := by
  have hc : cmdALB opt envO (s :: rest) = CmdOutcome.err (unrecognizedMsg s) := by
    unfold cmdALB
    rw [h2]
    simp [h3, h4, h5]
  refine ⟨?_, hc, ?_⟩
  · unfold cmdALB
    rw [h1]
  · unfold mainGo
    rw [hsd, hv]
    simp [hc]

theorem C10_witness :
    cmdALB optOk envListErr ["ls"] = CmdOutcome.err "listing failed" ∧
      cmdALB optOk envOk ["frobnicate"] =
        CmdOutcome.err (unrecognizedMsg "frobnicate") ∧
      mainGo optOk envOk ["frobnicate"] = MainOutcome.exit 1 :=
  C10_listing_precedes_dispatch optOk envListErr envOk ["ls"] "listing failed"
    ["alpha", "beta"] "frobnicate" [] rfl rfl rfl rfl rfl rfl rfl

/-! ### Loop invariants shared by C4 and C5 -/

/-- The monitor loop can only hand back the ledger variant it was given:
`runMonitors` never changes the `StaterKind` chosen by `cmdALB`. -/
theorem runMonitors_loop_stater (env : Env) (st : StaterKind) (b : Bool) :
    ∀ (names : List String) (s : StaterKind) (l : List String),
      runMonitors env st b names = CmdOutcome.loop s l → s = st := by
  intro names
  induction names with
  | nil =>
    intro s l h
    simp only [runMonitors] at h
    injection h with h1 h2
    exact h1.symm
  | cons n rest ih =>
    intro s l h
    simp only [runMonitors] at h
    cases hing : ingestDist env n <;> simp only [hing] at h
    · exact CmdOutcome.noConfusion h
    · cases b with
      | true => simp at h
      | false =>
        simp only [Bool.false_eq_true, if_false] at h
        exact ih s l h
    · cases hr : runMonitors env st b rest <;> simp only [hr] at h
      · exact CmdOutcome.noConfusion h
      · exact CmdOutcome.noConfusion h
      · exact CmdOutcome.noConfusion h
      · injection h with h1 h2
        exact h1 ▸ ih _ _ hr
      · exact CmdOutcome.noConfusion h

/-- If `cmdALB` reached the publisher loop then the backfill window was
accepted (1 ≤ h ≤ 168) and the ledger variant matches `--highavail`:
DynamoDB when requested, local files otherwise. -/
theorem cmdALB_loop_inv (opt : Options) (env : Env) (args : List String)
    (st : StaterKind) (l : List String)
    (h : cmdALB opt env args = CmdOutcome.loop st l) :
    1 ≤ opt.backfillHr ∧ opt.backfillHr ≤ 168 ∧
      (opt.highAvail = true → st = StaterKind.dynamo) ∧
      (opt.highAvail = false → st = StaterKind.file) := by
  unfold cmdALB at h
  split at h
  · exact CmdOutcome.noConfusion h
  · split at h
    · exact CmdOutcome.noConfusion h
    · split at h
      · exact CmdOutcome.noConfusion h
      · split at h
        · split at h
          · exact CmdOutcome.noConfusion h
          · split at h
            · exact CmdOutcome.noConfusion h
            · rename_i hrange
              have hb : 1 ≤ opt.backfillHr ∧ opt.backfillHr ≤ 168 := by
                simp only [Bool.or_eq_true, decide_eq_true_eq, not_or] at hrange
                omega
              split at h
              · rename_i hha
                split at h
                · have hst := runMonitors_loop_stater env StaterKind.dynamo _ _ _ _ h
                  refine ⟨hb.1, hb.2, fun _ => hst, fun hf => ?_⟩
                  rw [hha] at hf
                  exact Bool.noConfusion hf
                · exact CmdOutcome.noConfusion h
              · rename_i hha
                have hst := runMonitors_loop_stater env StaterKind.file _ _ _ _ h
                refine ⟨hb.1, hb.2, fun ht => absurd ht hha, fun _ => hst⟩
        · exact CmdOutcome.noConfusion h

/-! ### C4, C5 -/

/-- C4: with high-availability mode requested and the DynamoDB ledger
table missing, the process exits fatally with the provisioning hint and
no polling begins; and whenever high availability is requested, reaching
the publisher loop implies the DynamoDB ledger was chosen — there is no
silent fallback to the file-based ledger. -/
theorem C4_highavail_table_missing_fatal (opt : Options) (env : Env)
    (lbs rest : List String)
    (hlbs : env.listLBs = Except.ok lbs)
    (hha : opt.highAvail = true)
    (hdy : env.dynamoOk = false)
    (hwk : ¬ opt.writeKey = "")
    (hb1 : 1 ≤ opt.backfillHr) (hb2 : opt.backfillHr ≤ 168)
    (hsd : env.stateDirExists = true) (hv : opt.version = false) :
    mainGo opt env ("ingest" :: rest) = MainOutcome.fatal highAvailMsg ∧
      ∀ (env2 : Env) (args : List String) (st : StaterKind) (l : List String),
        cmdALB opt env2 args = CmdOutcome.loop st l → st = StaterKind.dynamo := by
  have hr1 : ¬ opt.backfillHr < 1 := by omega
  have hr2 : ¬ opt.backfillHr > 168 := by omega
  have hc : cmdALB opt env ("ingest" :: rest) = CmdOutcome.fatal highAvailMsg := by
    unfold cmdALB
    rw [hlbs]
    simp [hwk, hha, hdy, hr1, hr2]
  constructor
  · unfold mainGo
    rw [hsd, hv]
    simp [hc]
  · intro env2 args st l h
    exact (cmdALB_loop_inv opt env2 args st l h).2.2.1 hha

theorem C4_witness :
    mainGo { optOk with highAvail := true } envNoDynamo ["ingest"] =
      MainOutcome.fatal highAvailMsg :=
  (C4_highavail_table_missing_fatal { optOk with highAvail := true }
    envNoDynamo ["alpha"] [] rfl rfl rfl (by decide) (by decide) (by decide)
    rfl rfl).1

/-- C5: the ingest subcommand rejects any backfill-hours value outside
[1, 168] with a fatal error before any ledger is constructed or polling
starts, and the publisher loop is only ever reached with a backfill
value inside that range. -/
theorem C5_backfill_window_guard (opt : Options) (env : Env)
    (lbs rest : List String)
    (hlbs : env.listLBs = Except.ok lbs)
    (hwk : ¬ opt.writeKey = "")
    (hout : opt.backfillHr < 1 ∨ 168 < opt.backfillHr) :
    cmdALB opt env ("ingest" :: rest) = CmdOutcome.fatal backfillMsg ∧
      ∀ (opt2 : Options) (env2 : Env) (args : List String) (st : StaterKind)
        (l : List String), cmdALB opt2 env2 args = CmdOutcome.loop st l →
          1 ≤ opt2.backfillHr ∧ opt2.backfillHr ≤ 168 := by
  constructor
  · unfold cmdALB
    rw [hlbs]
    rcases hout with hlt | hgt
    · simp [hwk, hlt]
    · simp [hwk, hgt]
  · intro opt2 env2 args st l h
    exact ⟨(cmdALB_loop_inv opt2 env2 args st l h).1,
      (cmdALB_loop_inv opt2 env2 args st l h).2.1⟩

theorem C5_witness :
    cmdALB { optOk with backfillHr := 0 } envOk ["ingest"] =
      CmdOutcome.fatal backfillMsg :=
  (C5_backfill_window_guard { optOk with backfillHr := 0 } envOk
    ["alpha", "beta"] [] rfl (by decide) (Or.inl (by decide))).1

/-! ### Publisher-loop lemmas, C6, C3, C2 -/

/-- Draining only download events: every object received gets exactly
one publish attempt, in order, and the loop keeps running. -/
theorem publisherRun_downloads (pub : String → Bool) :
    ∀ objs : List String,
      publisherRun pub (objs.map Event.download) =
        (objs.map (fun o => (o, pub o)), none) := by
  intro objs
  induction objs with
  | nil => rfl
  | cons o rest ih => simp [publisherRun, ih]

/-- An interrupt after some downloads: exactly the preceding downloads
are attempted, then the process exits with code 1, consuming nothing
further. -/
theorem publisherRun_interrupt (pub : String → Bool) :
    ∀ (pre : List String) (post : List Event),
      publisherRun pub (pre.map Event.download ++ Event.interrupt :: post) =
        (pre.map (fun o => (o, pub o)), some 1) := by
  intro pre post
  induction pre with
  | nil => rfl
  | cons o rest ih => simp [publisherRun, ih]

/-- C6: a publish failure for object A is recorded and the publisher
loop continues: B (queued after A) and every later object still get
their own publish attempts, and the loop does not terminate. -/
theorem C6_publish_failure_isolated (pub : String → Bool) (a b : String)
    (objs : List String) (hfail : pub a = false) :
    publisherRun pub
        (Event.download a :: Event.download b :: objs.map Event.download) =
      ((a, false) :: (b, pub b) :: objs.map (fun o => (o, pub o)), none) := by
  have hb : Event.download a :: Event.download b :: objs.map Event.download =
      (a :: b :: objs).map Event.download := by simp
  rw [hb, publisherRun_downloads]
  simp [hfail]

theorem C6_witness :
    publisherRun (fun _ => false)
        (Event.download "A" :: Event.download "B" :: ([] : List String).map Event.download) =
      (("A", false) :: ("B", false) :: ([] : List String).map (fun o => (o, false)), none) :=
  C6_publish_failure_isolated (fun _ => false) "A" "B" [] rfl

/-- C3 counterexample: the claim predicts exit code 0 on a graceful
(interrupt-triggered) stop, but the interrupt handler is
`logrus.Fatal("Exiting due to interrupt.")`, which exits with code 1. -/
theorem C3_counterexample :
    (publisherRun (fun _ => true) [Event.interrupt]).2 = some 1 ∧
      (publisherRun (fun _ => true) [Event.interrupt]).2 ≠ some 0 := by
  constructor
  · rfl
  · decide

/-- C3 amended: on an interrupt the process stops accepting new work and
terminates promptly, but with exit code 1 (non-zero, via `logrus.Fatal`),
not 0; fatal configuration/resource errors likewise exit non-zero. -/
theorem C3_amended_interrupt_exits_one (pub : String → Bool)
    (pre : List String) (post : List Event) (opt : Options) (env : Env)
    (args : List String) (m : String)
    (hc : cmdALB opt env args = CmdOutcome.fatal m)
    (hsd : env.stateDirExists = true) (hv : opt.version = false) :
    publisherRun pub (pre.map Event.download ++ Event.interrupt :: post) =
        (pre.map (fun o => (o, pub o)), some 1) ∧
      exitCode (mainGo opt env args) = some 1 := by
  refine ⟨publisherRun_interrupt pub pre post, ?_⟩
  unfold mainGo
  rw [hsd, hv]
  cases args with
  | nil => rfl
  | cons a rest => simp [hc, exitCode]

theorem C3_witness :
    publisherRun (fun _ => true)
        (["x"].map Event.download ++ Event.interrupt :: [Event.download "y"]) =
        (["x"].map (fun o => (o, true)), some 1) ∧
      exitCode (mainGo { optOk with writeKey := "" } envOk ["ingest"]) = some 1 :=
  C3_amended_interrupt_exits_one (fun _ => true) ["x"] [Event.download "y"]
    { optOk with writeKey := "" } envOk ["ingest"] writeKeyMsg rfl rfl rfl

/-- C2 counterexample: two load balancers explicitly requested
("a" with access logging disabled, then "b"); the claim predicts the
error is logged, "a" is skipped and "b" keeps making progress, but the
code stops on the first error whenever any name was given explicitly
(`len(args[1:]) > 0`), so the process dies fatally and "b" is never
ingested. -/
theorem C2_counterexample :
    cmdALB optOk envDisabledA ["ingest", "a", "b"] =
        CmdOutcome.fatal fatalIngestMsg ∧
      cmdALB optOk envDisabledA ["ingest", "a", "b"] ≠
        CmdOutcome.loop StaterKind.file ["b"] := by
  constructor
  · rfl
  · decide

/-- C2 amended: an access-logging resource error is fatal whenever at
least one resource was explicitly requested — even if several were —
and only with auto-discovered resources is it logged and skipped with
the remaining resources proceeding; a describe failure (resource not
found) inside the per-resource setup is fatal in every case. -/
theorem C2_amended_resource_errors (env env2 : Env) (st st2 : StaterKind)
    (b : Bool) (n n2 : String) (rest rest2 : List String) (m e : String)
    (hdis : ingestDist env n = IngestResult.retErr m)
    (hnf : ingestDist env2 n2 = IngestResult.fatalErr e) :
    runMonitors env st true (n :: rest) = CmdOutcome.fatal fatalIngestMsg ∧
      runMonitors env st false (n :: rest) = runMonitors env st false rest ∧
      runMonitors env2 st2 b (n2 :: rest2) = CmdOutcome.fatal e := by
  refine ⟨?_, ?_, ?_⟩ <;> simp [runMonitors, hdis, hnf]

theorem C2_witness :
    runMonitors envDisabledA StaterKind.file true ["a", "b"] =
        CmdOutcome.fatal fatalIngestMsg ∧
      runMonitors envDisabledA StaterKind.file false ["a", "b"] =
        runMonitors envDisabledA StaterKind.file false ["b"] ∧
      runMonitors envNotFound StaterKind.file false ["a", "b"] =
        CmdOutcome.fatal "load balancer not found" :=
  C2_amended_resource_errors envDisabledA envNotFound StaterKind.file
    StaterKind.file false "a" "a" ["b"] ["b"] accessLogsMsg
    "load balancer not found" rfl rfl

/-! ### C1: pipeline idempotence over the spec-modelled ledger -/

/-- The ledger only grows: a key already marked stays marked across a
whole discovery pass. -/
theorem runWindow_ledger_mono (k : String) :
    ∀ (cands ledger : List String), k ∈ ledger → k ∈ (runWindow ledger cands).1 := by
  intro cands
  induction cands with
  | nil =>
    intro ledger h
    simpa [runWindow] using h
  | cons c rest ih =>
    intro ledger h
    by_cases hc : c ∈ ledger
    · simpa [runWindow, hc] using ih ledger h
    · simp only [runWindow, hc, if_false, markProcessed, if_neg hc]
      exact ih (c :: ledger) (List.mem_cons_of_mem c h)

/-- A key the ledger has already marked is never emitted again. -/
theorem runWindow_emits_zero_of_seen (k : String) :
    ∀ (cands ledger : List String), k ∈ ledger →
      ((runWindow ledger cands).2).count k = 0 := by
  intro cands
  induction cands with
  | nil =>
    intro ledger _
    simp [runWindow]
  | cons c rest ih =>
    intro ledger h
    by_cases hc : c ∈ ledger
    · simpa [runWindow, hc] using ih ledger h
    · have hck : (c == k) = false := by
        simp only [beq_eq_false_iff_ne, ne_eq]
        intro he
        exact hc (he ▸ h)
      simp only [runWindow, hc, if_false, markProcessed, if_neg hc,
        List.count_cons, hck, if_false]
      simpa using ih (c :: ledger) (List.mem_cons_of_mem c h)

/-- A key not yet in the ledger but listed in the window is emitted
exactly once by one discovery pass, and ends the pass marked. -/
theorem runWindow_emits_once_of_new (k : String) :
    ∀ (cands ledger : List String), k ∉ ledger → k ∈ cands →
      ((runWindow ledger cands).2).count k = 1 ∧
        k ∈ (runWindow ledger cands).1 := by
  intro cands
  induction cands with
  | nil =>
    intro ledger _ hk
    cases hk
  | cons c rest ih =>
    intro ledger hnl hk
    by_cases hck : c = k
    · subst hck
      have hz := runWindow_emits_zero_of_seen c rest (c :: ledger)
        (List.mem_cons_self c ledger)
      have hm := runWindow_ledger_mono c rest (c :: ledger)
        (List.mem_cons_self c ledger)
      constructor
      · simp only [runWindow, hnl, if_false, markProcessed, if_neg hnl,
          List.count_cons, hz]
        simp
      · simpa [runWindow, hnl, markProcessed] using hm
    · have hkrest : k ∈ rest := by
        rcases List.mem_cons.mp hk with h | h
        · exact absurd h.symm hck
        · exact h
      by_cases hc : c ∈ ledger
      · simpa [runWindow, hc] using ih ledger hnl hkrest
      · have hknl : k ∉ (c :: ledger) := by
          intro hmem
          rcases List.mem_cons.mp hmem with h | h
          · exact hck h.symm
          · exact hnl h
        have hrec := ih (c :: ledger) hknl hkrest
        have hckb : (c == k) = false := by
          simp only [beq_eq_false_iff_ne, ne_eq]
          exact hck
        constructor
        · simp only [runWindow, hc, if_false, markProcessed, if_neg hc,
            List.count_cons, hckb, if_false]
          simpa using hrec.1
        · simp only [runWindow, hc, if_false, markProcessed, if_neg hc]
          exact hrec.2

/-- C1 (modelled from the spec, see `runWindow`): for every ObjectKey k
not yet marked, running the full discover→download→mark pass twice over
the same backfill window emits k onto the Dispatch Channel exactly once
in total — the first pass marks k before emitting it, so the second pass
skips it. -/
theorem C1_two_passes_publish_once (ledger cands : List String) (k : String)
    (h0 : k ∉ ledger) (hk : k ∈ cands) :
    (((runWindow ledger cands).2) ++
        ((runWindow (runWindow ledger cands).1 cands).2)).count k = 1 := by
  have h1 := runWindow_emits_once_of_new k cands ledger h0 hk
  have h2 := runWindow_emits_zero_of_seen k cands (runWindow ledger cands).1 h1.2
  simp [List.count_append, h1.1, h2]

theorem C1_witness :
    (((runWindow [] ["k1", "k2"]).2) ++
        ((runWindow (runWindow [] ["k1", "k2"]).1 ["k1", "k2"]).2)).count "k1" = 1 :=
  C1_two_passes_publish_once [] ["k1", "k2"] "k1" (by decide) (by decide)
